import Mathlib

/-!
Shallow embedding of the AuraCast V2 frontend controller
(the `(function () { ... })()` module in the repository's main script):
upload validation, parse / generate-episode / ask-hosts request flows,
the staged-progress and chat-stagger timers, the client-side history
list, and the interrupt / resume playback state machine.

JavaScript strings are modelled as Lean `String` (operating on `.data`
where the code splits or trims), machine time stamps and the audio
element's `currentTime` as `ℚ`, and `null`/`undefined` values as
`Option`.  JS truthiness on nullable strings (`if (x)` where `x` is a
string or null) is modelled by `strTruthy`.  Asynchronous fetch results
and the resolution of `audioPlayer.play()` promises are external inputs,
passed as explicit parameters to the continuation functions.  Outward
effects (network requests issued, `play()` calls) are returned as an
explicit effect list.
-/

namespace AuraCast

/-- JS truthiness of a nullable string: `null`/`undefined` and `""` are falsy. -/
def strTruthy : Option String → Bool
  | none => false
  | some s => s != ""

/-- JS `x || null` on a nullable string. -/
def jsOrNone (o : Option String) : Option String :=
  if strTruthy o then o else none

/-- JS `x || d` on a nullable string with a string default. -/
def jsOr (o : Option String) (d : String) : String :=
  match o with
  | none => d
  | some s => if s == "" then d else s

/-- JS `s || d` on a plain string (empty string is falsy). -/
def jsOrStr (s d : String) : String :=
  if s == "" then d else s

/-- Whitespace characters trimmed by JS `String.prototype.trim` (ASCII part). -/
def jsWhitespace (c : Char) : Bool :=
  c == ' ' || c == '\t' || c == '\n' || c == '\r' || c == '\x0b' || c == '\x0c'

/-- JS `s.trim()`. -/
def jsTrim (s : String) : String :=
  String.mk (((s.data.dropWhile jsWhitespace).reverse.dropWhile jsWhitespace).reverse)

/-- Accumulator recursion behind `jsSplit`; mirrors JS `String.prototype.split`
with a single-character separator. -/
def jsSplitAux (sep : Char) : List Char → List Char → List (List Char)
  | [], acc => [acc.reverse]
  | c :: cs, acc =>
    if c = sep then acc.reverse :: jsSplitAux sep cs []
    else jsSplitAux sep cs (c :: acc)

/-- JS `s.split(sep)` for a one-character separator (so `""` splits to `[""]`
and a trailing separator yields a trailing empty segment, as in JS). -/
def jsSplit (sep : Char) (s : List Char) : List (List Char) :=
  jsSplitAux sep s []

/-- `file.name.split(".").pop().toLowerCase()` from `validateFile`. -/
def extOf (name : String) : String :=
  String.mk ((((jsSplit '.' name.data).getLast?).getD []).map Char.toLower)

/-- A selected file as the upload form sees it. -/
structure File where
  name : String
  size : Nat
deriving DecidableEq

/-- `validateFile`: `null` verdict means the file is accepted; otherwise the
returned string is the error message shown in the banner. -/
def validateFile : Option File → Option String
  | none => some "Please select a file."
  | some f =>
    let ext := extOf f.name
    if ext ≠ "pdf" ∧ ext ≠ "epub" then some "Only PDF and EPUB files are allowed."
    else if f.size > 50 * 1024 * 1024 then some "File is too large (max 50 MB)."
    else none

/-- `MAX_FILENAME_LENGTH`. -/
def MAX_FILENAME_LENGTH : Nat := 32

/-- Index of the last `.` in a character list (`name.lastIndexOf(".")`),
`none` when absent. -/
def lastDotIndex (l : List Char) : Option Nat :=
  ((l.enum.filter (fun p => p.2 = '.')).getLast?).map (fun p => p.1)

/-- `formatFileName`: shortens a long file name to at most 32 characters,
keeping the extension when the last dot is at a positive index. -/
def formatFileName (name : String) : String :=
  if name = "" ∨ name.length ≤ MAX_FILENAME_LENGTH then name
  else
    let cs := name.data
    let i : Int := match lastDotIndex cs with
      | some k => (k : Int)
      | none => -1
    let ext : List Char := if i > 0 then cs.drop i.toNat else []
    let base : List Char := if i > 0 then cs.take i.toNat else cs
    let keep : Int := (MAX_FILENAME_LENGTH : Int) - ext.length - 3
    String.mk (base.take (max 0 keep).toNat ++ ['…'] ++ ext)

/-- One persisted history entry (`{id, name, fullName, date}`). -/
structure HistoryEntry where
  id : Nat
  name : String
  fullName : String
  date : String
deriving DecidableEq

/-- The cap step of `addToHistory`:
`if (list.length > 50) list = list.slice(0, 50)`. -/
def capHistory (l : List HistoryEntry) : List HistoryEntry :=
  if l.length > 50 then l.take 50 else l

/-- `addToHistory`: prepends a fresh entry built from the file name, the
current timestamp id and formatted date, then caps the list at 50 by
slicing.  The persisted list is newest-first. -/
def addToHistory (nowId : Nat) (dateStr : String) (filename : String)
    (list : List HistoryEntry) : List HistoryEntry :=
  capHistory
    ({ id := nowId, name := jsOrStr (formatFileName filename) "Untitled",
       fullName := filename, date := dateStr } :: list)

/-- One candidate episode `{id, title}` returned by `/api/parse`. -/
structure Episode where
  id : Nat
  title : String
deriving DecidableEq

/-- One line of the generated podcast script `{speaker, text}`. -/
structure ScriptLine where
  speaker : String
  text : String
deriving DecidableEq

/-- A pending `setTimeout` callback.  `staged` drives `runStagedProgress`,
`reveal` is the `PROGRESS_TRANSITION_MS` callback inside `showResult`
(closing over that call's script, audio URL and episode title), and
`stagger` appends one chat row. -/
inductive TimerKind where
  | staged (stage : Nat)
  | reveal (script : List ScriptLine) (audioUrl : Option String) (title : Option String)
  | stagger (line : ScriptLine)
deriving DecidableEq

/-- Outward effects of a handler: network requests issued and calls to
`audioPlayer.play()` (tagged with the `src` loaded at the moment of the
call). -/
inductive Eff where
  | requestParse
  | requestGenerate
  | requestAskHosts (question : String)
  | play (src : Option String)
deriving DecidableEq

/-- The module state: the mutable DOM attributes the handlers touch, the
module-level `let` variables, the persisted history list, and the timer
world (`pendingTimers` are scheduled-but-unfired callbacks;
`progressTimeouts` is the script's tracking array of timer ids). -/
structure St where
  errorMessageText : String
  errorPanelHidden : Bool
  resultPanelHidden : Bool
  progressSectionHidden : Bool
  progressPercent : Nat
  progressStatus : String
  submitBtnHidden : Bool
  submitBtnDisabled : Bool
  generateEpisodeBtnDisabled : Bool
  episodeExplorerHidden : Bool
  episodeSelectedBlockHidden : Bool
  episodeItems : List Episode
  resultTitleText : String
  resultTitleHidden : Bool
  scriptContent : List ScriptLine
  audioSrc : Option String
  audioCurrentTime : ℚ
  audioPaused : Bool
  audioHidden : Bool
  interruptBlockHidden : Bool
  interruptBtnHidden : Bool
  interruptAskFormHidden : Bool
  interruptQuestionValue : String
  interruptAskSubmitDisabled : Bool
  currentUploadId : Option String
  currentEpisodes : List Episode
  selectedEpisodeId : Option String
  selectedEpisodeTitle : Option String
  currentEpisodeScript : Option (List ScriptLine)
  currentMainAudioUrl : Option String
  savedResumeTime : ℚ
  isPlayingInterruptReply : Bool
  history : List HistoryEntry
  nextTimerId : Nat
  pendingTimers : List (Nat × TimerKind)
  progressTimeouts : List Nat
deriving DecidableEq

/-- `clearTimeout` on every tracked id and `progressTimeouts = []`
(the loop shared by `showError` and the head of `showResult`). -/
def clearTracked (s : St) : St :=
  { s with
    pendingTimers := s.pendingTimers.filter (fun p => !(s.progressTimeouts.contains p.1))
    progressTimeouts := [] }

/-- `showError`: fills and shows the error banner, hides the result panel and
the progress section, re-shows and re-enables the submit button, re-enables
the generate button, and clears every tracked timer. -/
def showError (msg : String) (s : St) : St :=
  let s1 := clearTracked s
  { s1 with
    errorMessageText := msg
    errorPanelHidden := false
    resultPanelHidden := true
    progressSectionHidden := true
    submitBtnHidden := false
    submitBtnDisabled := false
    generateEpisodeBtnDisabled := false }

/-- `hideError`. -/
def hideError (s : St) : St :=
  { s with errorPanelHidden := true }

/-- `setProgress`. -/
def setProgress (percent : Nat) (statusText : String) (s : St) : St :=
  { s with progressPercent := percent, progressStatus := statusText }

/-- `STAGED_MESSAGES` (width, text). -/
def STAGED_MESSAGES : List (Nat × String) :=
  [(30, "Extracting text from eBook..."),
   (70, "AI Hosts analyzing narrative and drafting script..."),
   (95, "Synthesizing neural voices...")]

/-- Schedules a timer, tracked in `progressTimeouts`
(`progressTimeouts.push(setTimeout(...))`). -/
def scheduleTracked (k : TimerKind) (s : St) : St :=
  { s with
    pendingTimers := s.pendingTimers ++ [(s.nextTimerId, k)]
    progressTimeouts := s.progressTimeouts ++ [s.nextTimerId]
    nextTimerId := s.nextTimerId + 1 }

/-- Schedules a timer that the script does NOT record in
`progressTimeouts` (the bare `setTimeout` inside `showResult`). -/
def scheduleUntracked (k : TimerKind) (s : St) : St :=
  { s with
    pendingTimers := s.pendingTimers ++ [(s.nextTimerId, k)]
    nextTimerId := s.nextTimerId + 1 }

/-- Body of `next()` in `runStagedProgress` when it fires at `stage`:
past the last stage it only invokes the (absent) completion callback;
otherwise it advances the bar and schedules the next tick, tracked. -/
def fireStaged (stage : Nat) (s : St) : St :=
  match STAGED_MESSAGES.get? stage with
  | none => s
  | some m => scheduleTracked (.staged (stage + 1)) (setProgress m.1 m.2 s)

/-- `runStagedProgress` (no completion callback, as called in the code):
runs stage 0 synchronously, which schedules the rest. -/
def runStagedProgress (s : St) : St :=
  fireStaged 0 s

/-- Appends the chat rows' stagger timers, one tracked timer per script
line (the `forEach` at the end of `showResult`'s transition callback). -/
def scheduleStaggers (script : List ScriptLine) (s : St) : St :=
  script.foldl (fun st line => scheduleTracked (.stagger line) st) s

/-- The `PROGRESS_TRANSITION_MS` callback inside `showResult`: reveals the
result panel, restores the submit/generate buttons, hides the error
banner, sets the episode title line, clears the chat area, loads (or
hides) the audio element, shows the interrupt affordance when audio and a
non-empty script are present, resets the playback-resume state, and
schedules the stagger timers. -/
def fireReveal (script : List ScriptLine) (audioUrl : Option String)
    (episodeTitle : Option String) (s : St) : St :=
  let s1 := { s with
    progressSectionHidden := true
    submitBtnHidden := false
    submitBtnDisabled := false
    generateEpisodeBtnDisabled := false
    errorPanelHidden := true
    resultPanelHidden := false }
  let s2 :=
    if strTruthy episodeTitle then
      { s1 with resultTitleText := "Episode: " ++ episodeTitle.getD "", resultTitleHidden := false }
    else
      { s1 with resultTitleHidden := true }
  let s3 := { s2 with scriptContent := [] }
  let s4 :=
    if strTruthy audioUrl then
      let hasScript : Bool := match s3.currentEpisodeScript with
        | some l => !l.isEmpty
        | none => false
      let s4a := { s3 with audioSrc := audioUrl, audioHidden := false }
      if hasScript then
        { s4a with interruptBlockHidden := false, interruptAskFormHidden := true,
                   interruptBtnHidden := false }
      else
        { s4a with interruptBlockHidden := true }
    else
      { s3 with audioSrc := none, audioHidden := true, interruptBlockHidden := true }
  let s5 := { s4 with savedResumeTime := 0, isPlayingInterruptReply := false }
  scheduleStaggers script s5

/-- The synchronous head of `showResult`: clears tracked timers, jumps the
bar to 100%, stores the new script and main audio URL in the module
variables, and schedules the reveal callback — WITHOUT recording it in
`progressTimeouts`. -/
def showResultEntry (script : List ScriptLine) (audioUrl : Option String)
    (episodeTitle : Option String) (s : St) : St :=
  let s1 := clearTracked s
  let s2 := setProgress 100 "Ready!" s1
  let s3 := { s2 with
    currentEpisodeScript := some script
    currentMainAudioUrl := jsOrNone audioUrl }
  scheduleUntracked (.reveal script audioUrl episodeTitle) s3

/-- Runs the body of a fired timer. -/
def runTimer (k : TimerKind) (s : St) : St :=
  match k with
  | .staged stage => fireStaged stage s
  | .reveal script audioUrl title => fireReveal script audioUrl title s
  | .stagger line => { s with scriptContent := s.scriptContent ++ [line] }

/-- The event loop firing pending timer `id`: removes it from the pending
set and runs its body; a cancelled (absent) id is a no-op. -/
def fireTimer (id : Nat) (s : St) : St :=
  match s.pendingTimers.find? (fun p => p.1 == id) with
  | none => s
  | some pk =>
    runTimer pk.2 { s with pendingTimers := s.pendingTimers.filter (fun p => !(p.1 == id)) }

/-- `resumeMainAudio`: clears the substitute-playback flag, hides the ask
form, re-shows the interrupt trigger, empties the question box, and — when
a main audio URL is loaded — restores the track at `savedResumeTime` and
calls `play()`.  `playOk` is whether that `play()` promise resolves; its
rejection is swallowed (`.catch(function () {})`). -/
def resumeMainAudio (playOk : Bool) (s : St) : St × List Eff :=
  let s1 := { s with
    isPlayingInterruptReply := false
    interruptAskFormHidden := true
    interruptBtnHidden := false
    interruptQuestionValue := "" }
  if strTruthy s1.currentMainAudioUrl then
    ({ s1 with
        audioSrc := s1.currentMainAudioUrl
        audioCurrentTime := s1.savedResumeTime
        audioPaused := !playOk },
     [.play s1.currentMainAudioUrl])
  else
    (s1, [])

/-- The audio element's `ended` listener (the element pauses at end of
clip, then the listener resumes the main track when a substitute clip was
playing). -/
def onAudioEnded (playOk : Bool) (s : St) : St × List Eff :=
  let s0 := { s with audioPaused := true }
  if s0.isPlayingInterruptReply then resumeMainAudio playOk s0 else (s0, [])

/-- The interrupt trigger's click handler: requires a loaded script and a
truthy main audio URL; pauses, captures the resume offset, swaps the
trigger for the ask form. -/
def interruptBtnClick (s : St) : St :=
  if s.currentEpisodeScript.isSome ∧ strTruthy s.currentMainAudioUrl then
    { s with
      audioPaused := true
      savedResumeTime := s.audioCurrentTime
      interruptAskFormHidden := false
      interruptBtnHidden := true }
  else s

/-- The synchronous part of the ask-form submit handler: a blank trimmed
question is a silent no-op; a missing/empty script shows an error; else
the submit button is disabled and the `/api/ask_hosts` request goes out. -/
def interruptAskSubmitClick (s : St) : St × List Eff :=
  let question := jsTrim s.interruptQuestionValue
  if question = "" then (s, [])
  else
    let noScript : Bool := match s.currentEpisodeScript with
      | none => true
      | some l => l.isEmpty
    if noScript then (showError "No episode script available." s, [])
    else ({ s with interruptAskSubmitDisabled := true }, [.requestAskHosts question])

/-- Outcome of the `/api/ask_hosts` fetch: a network error, or a response
with its `ok` flag and the `error` / `audio_url` fields of the parsed
body (absent fields are `none`). -/
inductive AskOutcome where
  | networkError
  | response (ok : Bool) (errMsg : Option String) (audioUrl : Option String)
deriving DecidableEq

/-- The `/api/ask_hosts` continuation (`.then` / `.catch`).  `answerPlayOk`
is whether `play()` on the substitute clip resolves, `resumePlayOk`
whether the `play()` inside a fallback `resumeMainAudio` resolves. -/
def askHostsThen (o : AskOutcome) (answerPlayOk resumePlayOk : Bool) (s : St) :
    St × List Eff :=
  match o with
  | .networkError =>
    let s1 := { s with interruptAskSubmitDisabled := false }
    let s2 := showError "Network error. Please try again." s1
    ({ s2 with interruptBtnHidden := false, interruptAskFormHidden := true }, [])
  | .response ok errMsg audioUrl =>
    let s1 := { s with interruptAskSubmitDisabled := false }
    if !ok then
      let s2 := showError (jsOr errMsg "Something went wrong.") s1
      ({ s2 with interruptBtnHidden := false, interruptAskFormHidden := true }, [])
    else if strTruthy audioUrl then
      let s2 := { s1 with isPlayingInterruptReply := true, audioSrc := audioUrl }
      if answerPlayOk then
        ({ s2 with audioPaused := false }, [.play audioUrl])
      else
        let s3 := { s2 with isPlayingInterruptReply := false, audioPaused := true }
        let r := resumeMainAudio resumePlayOk s3
        (r.1, .play audioUrl :: r.2)
    else
      ({ s1 with interruptBtnHidden := false, interruptAskFormHidden := true }, [])

/-- The upload form's submit handler up to the `/api/parse` fetch:
validation failure shows the error and stops; otherwise the submit button
is swapped for the progress bar and the request goes out. -/
def formSubmit (file : Option File) (s : St) : St × List Eff :=
  match validateFile file with
  | some err => (showError err s, [])
  | none =>
    let s1 := hideError s
    ({ s1 with
        submitBtnHidden := true
        progressSectionHidden := false
        progressPercent := 20
        progressStatus := "Extracting text from eBook..." },
     [.requestParse])

/-- Outcome of the `/api/parse` fetch. -/
inductive ParseOutcome where
  | networkError
  | response (ok : Bool) (errMsg : Option String) (uploadId : Option String)
      (episodes : Option (List Episode))
deriving DecidableEq

/-- The `/api/parse` continuation: on success replaces the upload session,
clears the selection, renders the episode list and appends a history
entry (`nowId` is `Date.now()`, `dateStr` the formatted date); on a
non-ok response or network error shows the error and leaves the session
untouched. -/
def parseThen (o : ParseOutcome) (file : Option File) (nowId : Nat) (dateStr : String)
    (s : St) : St :=
  match o with
  | .networkError =>
    let s1 := showError "Network error. Please try again." s
    { s1 with progressSectionHidden := true, submitBtnHidden := false, submitBtnDisabled := false }
  | .response ok errMsg uploadId episodes =>
    let s1 := { s with
      progressSectionHidden := true
      submitBtnHidden := false
      submitBtnDisabled := false }
    if !ok then showError (jsOr errMsg "Something went wrong.") s1
    else
      let s2 := { s1 with
        currentUploadId := jsOrNone uploadId
        currentEpisodes := episodes.getD []
        selectedEpisodeId := none
        selectedEpisodeTitle := none
        episodeSelectedBlockHidden := true
        episodeItems := episodes.getD []
        episodeExplorerHidden := false }
      match file with
      | some f =>
        if f.name ≠ "" then
          { s2 with history := addToHistory nowId dateStr f.name s2.history }
        else s2
      | none => s2

/-- The generate button's click handler up to the `/api/generate_episode`
fetch. -/
def generateEpisodeClick (s : St) : St × List Eff :=
  if ¬ (strTruthy s.currentUploadId = true) ∨ s.selectedEpisodeId = none then
    (showError "Please select an episode first." s, [])
  else
    let s1 := hideError s
    ({ s1 with
        generateEpisodeBtnDisabled := true
        progressSectionHidden := false
        progressPercent := 30
        progressStatus := "Generating episode..." },
     [.requestGenerate])

/-- Outcome of the `/api/generate_episode` fetch. -/
inductive GenOutcome where
  | networkError
  | response (ok : Bool) (errMsg : Option String) (script : Option (List ScriptLine))
      (audioUrl : Option String)
deriving DecidableEq

/-- The `/api/generate_episode` continuation: success hands
`data.script || []` and the audio URL to `showResult` with the selected
episode's title; a non-ok response or a network error shows the error,
re-enables the generate button and hides the progress section. -/
def generateThen (o : GenOutcome) (s : St) : St :=
  match o with
  | .networkError =>
    let s1 := showError "Network error. Please try again." s
    { s1 with generateEpisodeBtnDisabled := false, progressSectionHidden := true }
  | .response ok errMsg script audioUrl =>
    if !ok then
      let s1 := showError (jsOr errMsg "Something went wrong.") s
      { s1 with generateEpisodeBtnDisabled := false, progressSectionHidden := true }
    else
      showResultEntry (script.getD []) audioUrl s.selectedEpisodeTitle s

/-- The module state right after the IIFE runs on a fresh page: every
panel in its initial visibility, all module variables at their declared
initial values, no timers pending, empty history. -/
def st0 : St :=
  { errorMessageText := ""
    errorPanelHidden := true
    resultPanelHidden := true
    progressSectionHidden := true
    progressPercent := 0
    progressStatus := ""
    submitBtnHidden := false
    submitBtnDisabled := false
    generateEpisodeBtnDisabled := false
    episodeExplorerHidden := true
    episodeSelectedBlockHidden := true
    episodeItems := []
    resultTitleText := ""
    resultTitleHidden := true
    scriptContent := []
    audioSrc := none
    audioCurrentTime := 0
    audioPaused := true
    audioHidden := true
    interruptBlockHidden := true
    interruptBtnHidden := false
    interruptAskFormHidden := true
    interruptQuestionValue := ""
    interruptAskSubmitDisabled := false
    currentUploadId := none
    currentEpisodes := []
    selectedEpisodeId := none
    selectedEpisodeTitle := none
    currentEpisodeScript := none
    currentMainAudioUrl := none
    savedResumeTime := 0
    isPlayingInterruptReply := false
    history := []
    nextTimerId := 0
    pendingTimers := []
    progressTimeouts := [] }

/-- A two-line demo script used by concrete witness states. -/
def demoScript : List ScriptLine :=
  [{ speaker := "Host A", text := "Welcome back." },
   { speaker := "Host B", text := "Let us dig in." }]

/-- A state in which a substitute (interrupt-answer) clip is playing:
main episode loaded, interrupt was triggered at offset 37/2 seconds, the
answer clip is in the audio element. -/
def playingAnswerState : St :=
  { st0 with
    resultPanelHidden := false
    audioSrc := some "/static/answer.mp3"
    audioCurrentTime := 4
    audioPaused := false
    audioHidden := false
    interruptBlockHidden := false
    interruptBtnHidden := true
    interruptAskFormHidden := false
    interruptQuestionValue := "Why the twist?"
    currentEpisodeScript := some demoScript
    currentMainAudioUrl := some "/static/episode1.mp3"
    savedResumeTime := 37 / 2
    isPlayingInterruptReply := true }

/-- A state in `RequestingAnswer`: ask form open, question typed, main
audio paused at the captured offset, request in flight. -/
def askPendingState : St :=
  { st0 with
    resultPanelHidden := false
    audioSrc := some "/static/episode1.mp3"
    audioCurrentTime := 37 / 2
    audioPaused := true
    audioHidden := false
    interruptBlockHidden := false
    interruptBtnHidden := true
    interruptAskFormHidden := false
    interruptQuestionValue := "Why the twist?"
    interruptAskSubmitDisabled := true
    currentEpisodeScript := some demoScript
    currentMainAudioUrl := some "/static/episode1.mp3"
    savedResumeTime := 37 / 2 }

/-- C1: when the substitute clip's `ended` event fires while
`isPlayingInterruptReply` is true (and a main audio URL is loaded, as it
is whenever that flag was set via the interrupt flow), the controller
loads the main track, sets `audioPlayer.currentTime` to the saved
`savedResumeTime`, has the `isPlayingInterruptReply` flag cleared in the
resulting state before `play()` is issued, re-shows the interrupt
trigger, and hides the ask form. -/
theorem c1_substitute_end_resumes_main (s : St) (playOk : Bool)
    (hflag : s.isPlayingInterruptReply = true)
    (hurl : strTruthy s.currentMainAudioUrl = true) :
    (onAudioEnded playOk s).1.audioCurrentTime = s.savedResumeTime ∧
    (onAudioEnded playOk s).1.isPlayingInterruptReply = false ∧
    (onAudioEnded playOk s).1.interruptBtnHidden = false ∧
    (onAudioEnded playOk s).1.interruptAskFormHidden = true ∧
    (onAudioEnded playOk s).1.audioSrc = s.currentMainAudioUrl ∧
    Eff.play s.currentMainAudioUrl ∈ (onAudioEnded playOk s).2 := by
  simp [onAudioEnded, resumeMainAudio, hflag, hurl]

/-- Witness for C1 at the concrete `playingAnswerState`. -/
theorem c1_witness :
    (onAudioEnded true playingAnswerState).1.audioCurrentTime
        = playingAnswerState.savedResumeTime ∧
    (onAudioEnded true playingAnswerState).1.isPlayingInterruptReply = false ∧
    (onAudioEnded true playingAnswerState).1.interruptBtnHidden = false ∧
    (onAudioEnded true playingAnswerState).1.interruptAskFormHidden = true ∧
    (onAudioEnded true playingAnswerState).1.audioSrc
        = playingAnswerState.currentMainAudioUrl ∧
    Eff.play playingAnswerState.currentMainAudioUrl
        ∈ (onAudioEnded true playingAnswerState).2 :=
  c1_substitute_end_resumes_main playingAnswerState true (by decide) (by decide)

/-- C2 counterexample: on a network error of `/api/ask_hosts` the handler
issues no `play()` call at all and leaves the audio element paused, so
main audio is NOT resumed in this failure branch, contrary to the claim
that every failure branch resumes it. -/
theorem c2_counterexample :
    ¬ (Eff.play askPendingState.currentMainAudioUrl
          ∈ (askHostsThen AskOutcome.networkError true true askPendingState).2 ∧
       (askHostsThen AskOutcome.networkError true true askPendingState).1.audioPaused
          = false) := by
  decide

/-- C2 (amended): only the branch where `play()` on the substitute clip
is rejected restores main audio at `savedResumeTime` and calls `play()`
on it; the non-2xx, network-error and missing-`audio_url` branches issue
no `play()` call and leave the audio element's src, offset and paused
flag untouched. -/
theorem c2_failure_branches (s : St) (pa rp : Bool) (e au : Option String) :
    (strTruthy au = true → strTruthy s.currentMainAudioUrl = true →
      (askHostsThen (AskOutcome.response true e au) false rp s).1.audioCurrentTime
          = s.savedResumeTime ∧
      (askHostsThen (AskOutcome.response true e au) false rp s).1.audioSrc
          = s.currentMainAudioUrl ∧
      Eff.play s.currentMainAudioUrl
          ∈ (askHostsThen (AskOutcome.response true e au) false rp s).2 ∧
      (askHostsThen (AskOutcome.response true e au) false rp s).1.isPlayingInterruptReply
          = false) ∧
    ((askHostsThen AskOutcome.networkError pa rp s).2 = [] ∧
      (askHostsThen AskOutcome.networkError pa rp s).1.audioSrc = s.audioSrc ∧
      (askHostsThen AskOutcome.networkError pa rp s).1.audioCurrentTime = s.audioCurrentTime ∧
      (askHostsThen AskOutcome.networkError pa rp s).1.audioPaused = s.audioPaused) ∧
    ((askHostsThen (AskOutcome.response false e au) pa rp s).2 = [] ∧
      (askHostsThen (AskOutcome.response false e au) pa rp s).1.audioSrc = s.audioSrc ∧
      (askHostsThen (AskOutcome.response false e au) pa rp s).1.audioCurrentTime
          = s.audioCurrentTime ∧
      (askHostsThen (AskOutcome.response false e au) pa rp s).1.audioPaused = s.audioPaused) ∧
    (strTruthy au = false →
      (askHostsThen (AskOutcome.response true e au) pa rp s).2 = [] ∧
      (askHostsThen (AskOutcome.response true e au) pa rp s).1.audioSrc = s.audioSrc ∧
      (askHostsThen (AskOutcome.response true e au) pa rp s).1.audioCurrentTime
          = s.audioCurrentTime ∧
      (askHostsThen (AskOutcome.response true e au) pa rp s).1.audioPaused = s.audioPaused) := by
  refine ⟨?_, ?_, ?_, ?_⟩
  · intro hau hurl
    simp [askHostsThen, resumeMainAudio, hau, hurl]
  · simp [askHostsThen, showError, clearTracked]
  · simp [askHostsThen, showError, clearTracked]
  · intro hau
    simp [askHostsThen, hau]

/-- Witness for C2 (amended) at `askPendingState` with a rejected
substitute `play()`. -/
theorem c2_witness :
    (askHostsThen (AskOutcome.response true none (some "/a.mp3")) false true
        askPendingState).1.audioCurrentTime = askPendingState.savedResumeTime ∧
    Eff.play askPendingState.currentMainAudioUrl
        ∈ (askHostsThen (AskOutcome.response true none (some "/a.mp3")) false true
            askPendingState).2 ∧
    (askHostsThen AskOutcome.networkError false true askPendingState).2 = [] :=
  have h := c2_failure_branches askPendingState false true none (some "/a.mp3")
  ⟨(h.1 (by decide) (by decide)).1, (h.1 (by decide) (by decide)).2.2.1, h.2.1.1⟩

/-- C3: a failed `/api/ask_hosts` request (non-2xx or network error)
re-shows the interrupt trigger, hides the ask form, and leaves the
captured `savedResumeTime` unchanged. -/
theorem c3_request_failure_idle_ui (s : St) (pa rp : Bool) (o : AskOutcome)
    (hfail : o = AskOutcome.networkError ∨
      ∃ e au, o = AskOutcome.response false e au) :
    (askHostsThen o pa rp s).1.interruptBtnHidden = false ∧
    (askHostsThen o pa rp s).1.interruptAskFormHidden = true ∧
    (askHostsThen o pa rp s).1.savedResumeTime = s.savedResumeTime := by
  rcases hfail with h | ⟨e, au, h⟩ <;> subst h <;>
    simp [askHostsThen, showError, clearTracked]

/-- Witness for C3 at `askPendingState` on a non-2xx response. -/
theorem c3_witness :
    (askHostsThen (AskOutcome.response false (some "busy") none) true true
        askPendingState).1.interruptBtnHidden = false ∧
    (askHostsThen (AskOutcome.response false (some "busy") none) true true
        askPendingState).1.interruptAskFormHidden = true ∧
    (askHostsThen (AskOutcome.response false (some "busy") none) true true
        askPendingState).1.savedResumeTime = askPendingState.savedResumeTime :=
  c3_request_failure_idle_ui askPendingState true true
    (AskOutcome.response false (some "busy") none)
    (Or.inr ⟨some "busy", none, rfl⟩)

/-- C4: submitting the ask form with a question that trims to the empty
string changes nothing (the whole state, including `savedResumeTime`,
`isPlayingInterruptReply`, the audio element and all panel visibility,
is returned untouched) and sends no request. -/
theorem c4_blank_question_noop (s : St) (h : jsTrim s.interruptQuestionValue = "") :
    interruptAskSubmitClick s = (s, []) := by
  simp [interruptAskSubmitClick, h]

/-- Witness for C4 at a state whose question box holds only blanks. -/
theorem c4_witness :
    interruptAskSubmitClick { st0 with interruptQuestionValue := "   " }
      = ({ st0 with interruptQuestionValue := "   " }, []) :=
  c4_blank_question_noop { st0 with interruptQuestionValue := "   " } (by decide)

/-- The superseded-flow scenario behind the C5 counterexample: a result
is shown (which schedules the untracked `PROGRESS_TRANSITION_MS` reveal
callback as timer 0), then an error is shown before that callback has
fired. -/
def staleTimerScenario : St :=
  showError "Network error. Please try again."
    (showResultEntry demoScript (some "/a.mp3") none st0)

/-- C5 counterexample: `showResult`'s reveal callback is scheduled with a
bare `setTimeout` that is never pushed onto `progressTimeouts`, so a
subsequent `showError` leaves it pending; when it fires it hides the
error banner and re-shows the abandoned flow's result panel — a stale UI
update after the error. -/
theorem c5_counterexample :
    staleTimerScenario.pendingTimers
        = [(0, TimerKind.reveal demoScript (some "/a.mp3") none)] ∧
    staleTimerScenario.errorPanelHidden = false ∧
    (fireTimer 0 staleTimerScenario).errorPanelHidden = true ∧
    (fireTimer 0 staleTimerScenario).resultPanelHidden = false := by
  decide

/-- C5 (amended): `showError` and the head of `showResult` cancel exactly
the tracked timers — every id recorded in `progressTimeouts` (the staged
progress ticks and the chat-stagger callbacks) is removed from the
pending set and the tracking list is emptied; the reveal timeout,
however, is scheduled untracked and is not covered by this cancellation.
The `hinv` hypothesis (tracked ids precede the next fresh id) holds of
every reachable state. -/
theorem c5_tracked_timers_cancelled (s : St) (msg : String)
    (script : List ScriptLine) (au ti : Option String) (id : Nat) (k : TimerKind)
    (hid : id ∈ s.progressTimeouts)
    (hinv : ∀ j ∈ s.progressTimeouts, j < s.nextTimerId) :
    ((id, k) ∉ (showError msg s).pendingTimers ∧
      (showError msg s).progressTimeouts = []) ∧
    ((id, k) ∉ (showResultEntry script au ti s).pendingTimers ∧
      (showResultEntry script au ti s).progressTimeouts = []) := by
  have hcontains : s.progressTimeouts.contains id = true := by
    simpa using hid
  refine ⟨⟨?_, by simp [showError, clearTracked]⟩,
          ⟨?_, by simp [showResultEntry, clearTracked, setProgress, scheduleUntracked]⟩⟩
  · intro hmem
    simp [showError, clearTracked, List.mem_filter] at hmem
    exact hmem.2 hid
  · intro hmem
    simp [showResultEntry, clearTracked, setProgress, scheduleUntracked,
      List.mem_append, List.mem_filter] at hmem
    rcases hmem with ⟨-, hno⟩ | ⟨heq, -⟩
    · exact hno hid
    · exact absurd (heq ▸ hinv id hid) (lt_irrefl _)

/-- A state with one tracked staged-progress timer pending, used as the
C5 witness. -/
def trackedTimerState : St :=
  { st0 with
    progressTimeouts := [0]
    pendingTimers := [(0, TimerKind.staged 1)]
    nextTimerId := 1 }

/-- Witness for C5 (amended) at `trackedTimerState`. -/
theorem c5_witness :
    ((0, TimerKind.staged 1) ∉ (showError "boom" trackedTimerState).pendingTimers ∧
      (showError "boom" trackedTimerState).progressTimeouts = []) ∧
    ((0, TimerKind.staged 1) ∉
        (showResultEntry demoScript none none trackedTimerState).pendingTimers ∧
      (showResultEntry demoScript none none trackedTimerState).progressTimeouts = []) :=
  c5_tracked_timers_cancelled trackedTimerState "boom" demoScript none none 0
    (TimerKind.staged 1) (by decide) (by decide)

/-- C6 counterexample: a 50 MB + 1 byte file named `book.txt` exceeds the
size threshold yet `validateFile` reports the unsupported-type message,
not the too-large one, because the extension check runs first. -/
theorem c6_counterexample :
    52428801 > 50 * 1024 * 1024 ∧
    validateFile (some { name := "book.txt", size := 52428801 })
      ≠ some "File is too large (max 50 MB)." := by
  decide

/-- C6 (amended): for every file whose extension check passes (last
dot-separated segment lowercases to `pdf` or `epub`) and whose size
exceeds 50 MB, `validateFile` fails with the too-large message. -/
theorem c6_accepted_type_too_large (f : File)
    (hext : extOf f.name = "pdf" ∨ extOf f.name = "epub")
    (hsize : f.size > 50 * 1024 * 1024) :
    validateFile (some f) = some "File is too large (max 50 MB)." := by
  rcases hext with h | h <;> simp [validateFile, h, hsize]

/-- Witness for C6 (amended) at a 50 MB + 1 byte PDF. -/
theorem c6_witness :
    validateFile (some { name := "big.pdf", size := 52428801 })
      = some "File is too large (max 50 MB)." :=
  c6_accepted_type_too_large { name := "big.pdf", size := 52428801 }
    (Or.inl (by decide)) (by decide)

/-- C7: a failed `/api/parse` request (non-2xx response or network error)
surfaces the error banner and leaves the upload session untouched:
`currentUploadId`, `currentEpisodes`, `selectedEpisodeId` and
`selectedEpisodeTitle` keep their pre-request values. -/
theorem c7_parse_failure_session_unchanged (s : St) (o : ParseOutcome)
    (file : Option File) (nowId : Nat) (d : String)
    (hfail : o = ParseOutcome.networkError ∨
      ∃ e u eps, o = ParseOutcome.response false e u eps) :
    (parseThen o file nowId d s).currentUploadId = s.currentUploadId ∧
    (parseThen o file nowId d s).currentEpisodes = s.currentEpisodes ∧
    (parseThen o file nowId d s).selectedEpisodeId = s.selectedEpisodeId ∧
    (parseThen o file nowId d s).selectedEpisodeTitle = s.selectedEpisodeTitle ∧
    (parseThen o file nowId d s).history = s.history ∧
    (parseThen o file nowId d s).errorPanelHidden = false := by
  rcases hfail with h | ⟨e, u, eps, h⟩ <;> subst h <;>
    simp [parseThen, showError, clearTracked]

/-- Witness for C7 on a network error from a fresh page. -/
theorem c7_witness :
    (parseThen ParseOutcome.networkError (some { name := "b.pdf", size := 9 }) 5 "d"
        st0).currentUploadId = st0.currentUploadId ∧
    (parseThen ParseOutcome.networkError (some { name := "b.pdf", size := 9 }) 5 "d"
        st0).currentEpisodes = st0.currentEpisodes ∧
    (parseThen ParseOutcome.networkError (some { name := "b.pdf", size := 9 }) 5 "d"
        st0).selectedEpisodeId = st0.selectedEpisodeId ∧
    (parseThen ParseOutcome.networkError (some { name := "b.pdf", size := 9 }) 5 "d"
        st0).selectedEpisodeTitle = st0.selectedEpisodeTitle ∧
    (parseThen ParseOutcome.networkError (some { name := "b.pdf", size := 9 }) 5 "d"
        st0).history = st0.history ∧
    (parseThen ParseOutcome.networkError (some { name := "b.pdf", size := 9 }) 5 "d"
        st0).errorPanelHidden = false :=
  c7_parse_failure_session_unchanged st0 ParseOutcome.networkError
    (some { name := "b.pdf", size := 9 }) 5 "d" (Or.inl rfl)

/-- C8: `addToHistory` never lets the persisted list exceed 50 entries,
and adding to a full list of 50 keeps the length at 50 by evicting the
last element of the newest-first list (the oldest entry). -/
theorem c8_history_capped (nowId : Nat) (dateStr filename : String)
    (list : List HistoryEntry) :
    (addToHistory nowId dateStr filename list).length ≤ 50 ∧
    (list.length = 50 →
      addToHistory nowId dateStr filename list
        = { id := nowId, name := jsOrStr (formatFileName filename) "Untitled",
            fullName := filename, date := dateStr } :: list.dropLast) := by
  constructor
  · unfold addToHistory capHistory
    split
    · simp [List.length_take]
    · rename_i h
      omega
  · intro hlen
    unfold addToHistory capHistory
    rw [if_pos (by simp [hlen])]
    rw [show (50 : Nat) = 49 + 1 from rfl, List.take_succ_cons,
      List.dropLast_eq_take, hlen]

/-- Witness for C8 at a full list of 50 identical entries. -/
theorem c8_witness :
    (addToHistory 7 "d" "b.pdf" (List.replicate 50
        { id := 0, name := "n", fullName := "f", date := "d" })).length ≤ 50 ∧
    ((List.replicate 50
        { id := 0, name := "n", fullName := "f", date := "d" } :
          List HistoryEntry).length = 50 →
      addToHistory 7 "d" "b.pdf" (List.replicate 50
          { id := 0, name := "n", fullName := "f", date := "d" })
        = { id := 7, name := jsOrStr (formatFileName "b.pdf") "Untitled",
            fullName := "b.pdf", date := "d" }
          :: (List.replicate 50
              { id := 0, name := "n", fullName := "f", date := "d" } :
                List HistoryEntry).dropLast) :=
  c8_history_capped 7 "d" "b.pdf"
    (List.replicate 50 { id := 0, name := "n", fullName := "f", date := "d" })

/-- Splitting a list that does not contain the separator yields a single
segment: the accumulator so far followed by the rest. -/
theorem jsSplitAux_of_not_mem (sep : Char) (l : List Char) :
    ∀ acc, sep ∉ l → jsSplitAux sep l acc = [acc.reverse ++ l] := by
  induction l with
  | nil => intro acc h; simp [jsSplitAux]
  | cons c cs ih =>
    intro acc h
    have hc : ¬ c = sep := fun hcs => h (hcs ▸ List.mem_cons_self c cs)
    simp only [jsSplitAux]
    rw [if_neg hc, ih (c :: acc) (fun hm => h (List.mem_cons_of_mem c hm))]
    simp

/-- C9: the extension check works on the last dot-separated segment of
the lowercased name — a name without any dot is its own extension, so
the bare names `pdf` and `EPUB` pass the type check, and the check is
case-insensitive, accepting `Book.PDF`. -/
theorem c9_extension_check (name : String) (h : '.' ∉ name.data) :
    extOf name = String.mk (name.data.map Char.toLower) ∧
    validateFile (some { name := "pdf", size := 1 }) = none ∧
    validateFile (some { name := "EPUB", size := 1 }) = none ∧
    validateFile (some { name := "Book.PDF", size := 1 }) = none := by
  refine ⟨?_, by decide, by decide, by decide⟩
  simp [extOf, jsSplit, jsSplitAux_of_not_mem '.' name.data [] h]

/-- Witness for C9 at the dot-free name `pdf`. -/
theorem c9_witness :
    extOf "pdf" = String.mk ("pdf".data.map Char.toLower) ∧
    validateFile (some { name := "pdf", size := 1 }) = none ∧
    validateFile (some { name := "EPUB", size := 1 }) = none ∧
    validateFile (some { name := "Book.PDF", size := 1 }) = none :=
  c9_extension_check "pdf" (by decide)

/-- A state with a generated result on screen and another episode
selected, from which a further `/api/generate_episode` request can
fail. -/
def resultShowingState : St :=
  { st0 with
    resultPanelHidden := false
    progressSectionHidden := false
    generateEpisodeBtnDisabled := true
    episodeExplorerHidden := false
    episodeSelectedBlockHidden := false
    currentUploadId := some "u1"
    currentEpisodes := [{ id := 1, title := "Chapter 1" }, { id := 3, title := "Chapter 3" }]
    selectedEpisodeId := some "3"
    selectedEpisodeTitle := some "Chapter 3"
    currentEpisodeScript := some demoScript
    currentMainAudioUrl := some "/static/episode1.mp3"
    audioSrc := some "/static/episode1.mp3"
    audioHidden := false
    interruptBlockHidden := false }

/-- C10 counterexample: when a generated result is on screen and the next
`/api/generate_episode` request fails, the failure handling also hides
the result panel — a change outside the claimed error-banner /
progress-section / button-disabled set. -/
theorem c10_counterexample :
    resultShowingState.resultPanelHidden = false ∧
    (generateThen GenOutcome.networkError resultShowingState).resultPanelHidden
      = true := by
  decide

/-- C10 (amended): a failed `/api/generate_episode` request leaves every
session field untouched (`currentUploadId`, `selectedEpisodeId`,
`selectedEpisodeTitle`, `currentEpisodeScript`, `currentMainAudioUrl`,
`savedResumeTime`, plus the episode list, history and the audio
element); the changes are confined to the error banner (shown), the
result panel (hidden), the progress section (hidden), the submit button
(shown, enabled) and the generate button (re-enabled). -/
theorem c10_generate_failure_frame (s : St) (o : GenOutcome)
    (hfail : o = GenOutcome.networkError ∨
      ∃ e sc au, o = GenOutcome.response false e sc au) :
    (generateThen o s).currentUploadId = s.currentUploadId ∧
    (generateThen o s).selectedEpisodeId = s.selectedEpisodeId ∧
    (generateThen o s).selectedEpisodeTitle = s.selectedEpisodeTitle ∧
    (generateThen o s).currentEpisodeScript = s.currentEpisodeScript ∧
    (generateThen o s).currentMainAudioUrl = s.currentMainAudioUrl ∧
    (generateThen o s).savedResumeTime = s.savedResumeTime ∧
    (generateThen o s).currentEpisodes = s.currentEpisodes ∧
    (generateThen o s).history = s.history ∧
    (generateThen o s).audioSrc = s.audioSrc ∧
    (generateThen o s).audioCurrentTime = s.audioCurrentTime ∧
    (generateThen o s).audioPaused = s.audioPaused ∧
    (generateThen o s).interruptBtnHidden = s.interruptBtnHidden ∧
    (generateThen o s).interruptAskFormHidden = s.interruptAskFormHidden ∧
    (generateThen o s).isPlayingInterruptReply = s.isPlayingInterruptReply ∧
    (generateThen o s).errorPanelHidden = false ∧
    (generateThen o s).resultPanelHidden = true ∧
    (generateThen o s).progressSectionHidden = true ∧
    (generateThen o s).generateEpisodeBtnDisabled = false ∧
    (generateThen o s).submitBtnHidden = false ∧
    (generateThen o s).submitBtnDisabled = false := by
  rcases hfail with h | ⟨e, sc, au, h⟩ <;> subst h <;>
    simp [generateThen, showError, clearTracked]

/-- Witness for C10 (amended) at `resultShowingState` on a non-2xx
response. -/
theorem c10_witness :
    (generateThen (GenOutcome.response false (some "quota") none none)
        resultShowingState).currentUploadId = resultShowingState.currentUploadId ∧
    (generateThen (GenOutcome.response false (some "quota") none none)
        resultShowingState).selectedEpisodeId = resultShowingState.selectedEpisodeId ∧
    (generateThen (GenOutcome.response false (some "quota") none none)
        resultShowingState).selectedEpisodeTitle = resultShowingState.selectedEpisodeTitle ∧
    (generateThen (GenOutcome.response false (some "quota") none none)
        resultShowingState).currentEpisodeScript = resultShowingState.currentEpisodeScript ∧
    (generateThen (GenOutcome.response false (some "quota") none none)
        resultShowingState).currentMainAudioUrl = resultShowingState.currentMainAudioUrl ∧
    (generateThen (GenOutcome.response false (some "quota") none none)
        resultShowingState).savedResumeTime = resultShowingState.savedResumeTime ∧
    (generateThen (GenOutcome.response false (some "quota") none none)
        resultShowingState).currentEpisodes = resultShowingState.currentEpisodes ∧
    (generateThen (GenOutcome.response false (some "quota") none none)
        resultShowingState).history = resultShowingState.history ∧
    (generateThen (GenOutcome.response false (some "quota") none none)
        resultShowingState).audioSrc = resultShowingState.audioSrc ∧
    (generateThen (GenOutcome.response false (some "quota") none none)
        resultShowingState).audioCurrentTime = resultShowingState.audioCurrentTime ∧
    (generateThen (GenOutcome.response false (some "quota") none none)
        resultShowingState).audioPaused = resultShowingState.audioPaused ∧
    (generateThen (GenOutcome.response false (some "quota") none none)
        resultShowingState).interruptBtnHidden = resultShowingState.interruptBtnHidden ∧
    (generateThen (GenOutcome.response false (some "quota") none none)
        resultShowingState).interruptAskFormHidden
      = resultShowingState.interruptAskFormHidden ∧
    (generateThen (GenOutcome.response false (some "quota") none none)
        resultShowingState).isPlayingInterruptReply
      = resultShowingState.isPlayingInterruptReply ∧
    (generateThen (GenOutcome.response false (some "quota") none none)
        resultShowingState).errorPanelHidden = false ∧
    (generateThen (GenOutcome.response false (some "quota") none none)
        resultShowingState).resultPanelHidden = true ∧
    (generateThen (GenOutcome.response false (some "quota") none none)
        resultShowingState).progressSectionHidden = true ∧
    (generateThen (GenOutcome.response false (some "quota") none none)
        resultShowingState).generateEpisodeBtnDisabled = false ∧
    (generateThen (GenOutcome.response false (some "quota") none none)
        resultShowingState).submitBtnHidden = false ∧
    (generateThen (GenOutcome.response false (some "quota") none none)
        resultShowingState).submitBtnDisabled = false :=
  c10_generate_failure_frame resultShowingState
    (GenOutcome.response false (some "quota") none none)
    (Or.inr ⟨some "quota", none, none, rfl⟩)

end AuraCast
